import Mathlib

/-!
Verification of the claude-squad per-repository state store, process lock,
repository hashing, and auto-confirm daemon loop.

The Go sources are embedded shallowly:
- `State` mirrors `config.State` (state.go); `help_screens_seen` is a `uint32`
  stored and returned without arithmetic, so it is represented as a `Nat`.
- The slice of the `.claude-squad/` state directory touched by `LoadState` and
  `SaveState` (`state.json`, `state.json.bak`, `state.json.corrupted.<ts>`)
  is an explicit record `StateFS`; file contents are `String`s and the
  permission mode used by `os.WriteFile` is carried alongside.
- Filesystem calls that can fail (`os.Rename`, `os.ReadFile`, `os.WriteFile`,
  `GetStateDir`) are driven by boolean fault-injection flags in an
  environment record, so each error-handling branch of the Go code is a
  reachable branch of the Lean function.
- The JSON codec (`json.Unmarshal` / `json.MarshalIndent`) is a parameter
  (`parse` / `encode`): the store's control flow only inspects whether the
  codec succeeds, so the theorems quantify over every codec.
-/

/-- Contents and permission mode of one file on disk. -/
structure FileData where
  content : String
  mode : Nat
deriving Repr, DecidableEq

/-- The slice of the per-repo state directory `.claude-squad/` that the
store reads and writes: `state.json` (primary), `state.json.bak` (backup)
and the quarantined `state.json.corrupted.<unix-ts>` files, keyed by the
timestamp in their name. `none` means the file is absent. -/
structure StateFS where
  primary : Option FileData
  backup : Option FileData
  corrupted : List (Nat × FileData)
deriving Repr, DecidableEq

/-- `config.State`: the persisted application state. `repoPath` carries the
Go struct's unexported, unserialized `repoPath` field (zero value `""`). -/
structure State where
  helpScreensSeen : Nat
  instancesData : String
  repoPath : String
deriving Repr, DecidableEq

/-- `config.DefaultState`. -/
def DefaultState : State :=
  { helpScreensSeen := 0, instancesData := "[]", repoPath := "" }

/-- Fault-injection environment for one `SaveState` call. `stateDirOk`
says whether `GetStateDir` succeeds for a given repo path; the other flags
drive the individual `os` calls inside `SaveState`. -/
structure SaveEnv where
  stateDirOk : String → Bool
  renameToBackupOk : Bool
  readPrimaryForCopyOk : Bool
  writeBackupCopyOk : Bool
  writePrimaryOk : Bool
  restoreRenameOk : Bool

/-- `config.SaveState`, translated branch for branch from state.go:
marshal; if the primary exists, rename it to the backup (on rename failure,
fall back to read-then-copy, ignoring the copy's error); write the new
primary with mode 0644; on write failure, restore the backup over the
primary (ignoring the restore's error) and report the error. A failed
write is modelled as leaving the target file unchanged. -/
def SaveState (encode : State → Option String) (env : SaveEnv)
    (state : State) (repoPath : String) (fs : StateFS) :
    Except String Unit × StateFS :=
  if !env.stateDirOk repoPath then
    (.error "failed to get state directory", fs)
  else
    match encode state with
    | none => (.error "failed to marshal state", fs)
    | some data =>
      let fs1 :=
        match fs.primary with
        | some p =>
          if env.renameToBackupOk then
            { fs with primary := none, backup := some p }
          else if env.readPrimaryForCopyOk && env.writeBackupCopyOk then
            { fs with backup := some { content := p.content, mode := 0o644 } }
          else fs
        | none => fs
      if env.writePrimaryOk then
        (.ok (), { fs1 with primary := some { content := data, mode := 0o644 } })
      else
        match fs1.backup with
        | some b =>
          if env.restoreRenameOk then
            (.error "failed to write state file",
             { fs1 with primary := some b, backup := none })
          else
            (.error "failed to write state file", fs1)
        | none => (.error "failed to write state file", fs1)

/-- Fault-injection environment for one `LoadState` call. `saveEnv` drives
the nested `SaveState` call on the absent-file branch; `now` is the Unix
timestamp used in the quarantine file name. -/
structure LoadEnv where
  stateDirOk : String → Bool
  primaryReadFails : Bool
  renameCorruptOk : Bool
  backupReadFails : Bool
  now : Nat
  saveEnv : SaveEnv

/-- `config.LoadState`, translated branch for branch from state.go:
if `GetStateDir` fails, return the default; if `state.json` is absent,
save and return the default (its `repoPath` left empty, as in the Go
code); if reading it fails otherwise, return the default with `repoPath`
set; if it parses, return it with `repoPath` set; if it does not parse,
rename it to `state.json.corrupted.<now>` (continuing even if the rename
fails), then read and parse the backup, returning the backup's state on
success and the default otherwise, `repoPath` set in either case. -/
def LoadState (parse : String → Option State) (encode : State → Option String)
    (env : LoadEnv) (repoPath : String) (fs : StateFS) : State × StateFS :=
  if !env.stateDirOk repoPath then
    (DefaultState, fs)
  else
    match fs.primary with
    | none =>
      let r := SaveState encode env.saveEnv DefaultState repoPath fs
      (DefaultState, r.2)
    | some p =>
      if env.primaryReadFails then
        ({ DefaultState with repoPath := repoPath }, fs)
      else
        match parse p.content with
        | some st => ({ st with repoPath := repoPath }, fs)
        | none =>
          let fs1 :=
            if env.renameCorruptOk then
              { fs with primary := none, corrupted := fs.corrupted ++ [(env.now, p)] }
            else fs
          match fs.backup with
          | some b =>
            if !env.backupReadFails then
              match parse b.content with
              | some bs => ({ bs with repoPath := repoPath }, fs1)
              | none => ({ DefaultState with repoPath := repoPath }, fs1)
            else ({ DefaultState with repoPath := repoPath }, fs1)
          | none => ({ DefaultState with repoPath := repoPath }, fs1)

/-- `State.SaveInstances`: set the instances blob and save, passing the
receiver's own `repoPath` to `SaveState`. Returns the error, the mutated
state, and the filesystem. -/
def SaveInstances (encode : State → Option String) (env : SaveEnv)
    (s : State) (instancesJSON : String) (fs : StateFS) :
    Except String Unit × State × StateFS :=
  let s1 := { s with instancesData := instancesJSON }
  let r := SaveState encode env s1 s.repoPath fs
  (r.1, s1, r.2)

/-- `State.GetInstances`. -/
def GetInstances (s : State) : String := s.instancesData

/-- `State.DeleteAllInstances`: set the instances blob to `[]` and save,
passing the receiver's own `repoPath` to `SaveState`. -/
def DeleteAllInstances (encode : State → Option String) (env : SaveEnv)
    (s : State) (fs : StateFS) : Except String Unit × State × StateFS :=
  let s1 := { s with instancesData := "[]" }
  let r := SaveState encode env s1 s.repoPath fs
  (r.1, s1, r.2)

/-- `State.GetHelpScreensSeen`. -/
def GetHelpScreensSeen (s : State) : Nat := s.helpScreensSeen

/-- `State.SetHelpScreensSeen`: set the bitmask and save, passing the
receiver's own `repoPath` to `SaveState`. -/
def SetHelpScreensSeen (encode : State → Option String) (env : SaveEnv)
    (s : State) (seen : Nat) (fs : StateFS) :
    Except String Unit × State × StateFS :=
  let s1 := { s with helpScreensSeen := seen }
  let r := SaveState encode env s1 s.repoPath fs
  (r.1, s1, r.2)

/-- C1: if the primary state file exists but does not parse, `LoadState`
(i) renames it to `state.json.corrupted.<unix-ts>`, (ii) reads and parses
the backup and, if the backup parses, returns the backup's state, and
(iii) otherwise returns the default state (`help_screens_seen = 0`,
`instances = []`), in that order. -/
theorem C1_loadState_corrupt_primary_recovery
    (parse : String → Option State) (encode : State → Option String)
    (env : LoadEnv) (repoPath : String) (fs : StateFS) (p : FileData)
    (hdir : env.stateDirOk repoPath = true)
    (hprim : fs.primary = some p)
    (hread : env.primaryReadFails = false)
    (hparse : parse p.content = none)
    (hren : env.renameCorruptOk = true)
    (hbak : env.backupReadFails = false) :
    (LoadState parse encode env repoPath fs).2.primary = none ∧
    (LoadState parse encode env repoPath fs).2.corrupted
      = fs.corrupted ++ [(env.now, p)] ∧
    (LoadState parse encode env repoPath fs).1
      = (match fs.backup with
         | some b =>
           match parse b.content with
           | some bs => { bs with repoPath := repoPath }
           | none => { DefaultState with repoPath := repoPath }
         | none => { DefaultState with repoPath := repoPath }) := by
  cases hb : fs.backup with
  | none => simp [LoadState, hdir, hprim, hread, hparse, hren, hb]
  | some b =>
    cases hpb : parse b.content with
    | none => simp [LoadState, hdir, hprim, hread, hparse, hren, hbak, hb, hpb]
    | some bs => simp [LoadState, hdir, hprim, hread, hparse, hren, hbak, hb, hpb]

/-- Concrete codec recognizing exactly one good document, for witnesses. -/
def parseG : String → Option State := fun s =>
  if s = "G" then some { helpScreensSeen := 7, instancesData := "[i]", repoPath := "" }
  else none

/-- Concrete encoder for witnesses: every document serializes to `"G"`. -/
def encodeG : State → Option String := fun _ => some "G"

/-- A fault-free `SaveState` environment, for witnesses. -/
def allOkSaveEnv : SaveEnv :=
  { stateDirOk := fun _ => true, renameToBackupOk := true,
    readPrimaryForCopyOk := true, writeBackupCopyOk := true,
    writePrimaryOk := true, restoreRenameOk := true }

/-- A fault-free `LoadState` environment, for witnesses. -/
def allOkLoadEnv : LoadEnv :=
  { stateDirOk := fun _ => true, primaryReadFails := false,
    renameCorruptOk := true, backupReadFails := false,
    now := 1700000000, saveEnv := allOkSaveEnv }

/-- A state directory holding a corrupt primary and a good backup. -/
def fsCorrupt : StateFS :=
  { primary := some { content := "\x7b", mode := 0o644 },
    backup := some { content := "G", mode := 0o644 },
    corrupted := [] }

/-- Witness for C1 at a concrete corrupt store. -/
theorem C1_loadState_corrupt_primary_recovery_witness :
    (allOkLoadEnv.stateDirOk "repo" = true ∧
     fsCorrupt.primary = some { content := "\x7b", mode := 0o644 } ∧
     allOkLoadEnv.primaryReadFails = false ∧
     parseG "\x7b" = none ∧
     allOkLoadEnv.renameCorruptOk = true ∧
     allOkLoadEnv.backupReadFails = false) ∧
    ((LoadState parseG encodeG allOkLoadEnv "repo" fsCorrupt).2.primary = none ∧
     (LoadState parseG encodeG allOkLoadEnv "repo" fsCorrupt).2.corrupted
       = fsCorrupt.corrupted ++ [(allOkLoadEnv.now, { content := "\x7b", mode := 0o644 })] ∧
     (LoadState parseG encodeG allOkLoadEnv "repo" fsCorrupt).1
       = (match fsCorrupt.backup with
          | some b =>
            match parseG b.content with
            | some bs => { bs with repoPath := "repo" }
            | none => { DefaultState with repoPath := "repo" }
          | none => { DefaultState with repoPath := "repo" })) :=
  ⟨⟨by decide, by decide, by decide, by decide, by decide, by decide⟩,
   C1_loadState_corrupt_primary_recovery parseG encodeG allOkLoadEnv "repo"
     fsCorrupt { content := "\x7b", mode := 0o644 }
     (by decide) (by decide) (by decide) (by decide) (by decide) (by decide)⟩

/-- C2: `SaveState` first rotates an existing primary to the backup
(falling back to a copy when the rename fails), then writes the new
primary with mode 0644; when writing the new primary fails it restores
the backup over the primary and returns an error; and unconditionally —
for every combination of filesystem faults — at least one of
`state.json` / `state.json.bak` survives the call whenever at least one
existed at entry. -/
theorem C2_saveState_backup_rotation_and_survival
    (encode : State → Option String) (env : SaveEnv)
    (st : State) (repoPath : String) (fs : StateFS) :
    (∀ data p, encode st = some data → env.stateDirOk repoPath = true →
      fs.primary = some p →
      env.renameToBackupOk = true → env.writePrimaryOk = true →
      SaveState encode env st repoPath fs =
        (.ok (), { fs with primary := some { content := data, mode := 0o644 },
                           backup := some p })) ∧
    (∀ data p, encode st = some data → env.stateDirOk repoPath = true →
      fs.primary = some p →
      env.renameToBackupOk = false → env.readPrimaryForCopyOk = true →
      env.writeBackupCopyOk = true → env.writePrimaryOk = true →
      SaveState encode env st repoPath fs =
        (.ok (), { fs with primary := some { content := data, mode := 0o644 },
                           backup := some { content := p.content, mode := 0o644 } })) ∧
    (∀ data p, encode st = some data → env.stateDirOk repoPath = true →
      fs.primary = some p →
      env.renameToBackupOk = true → env.writePrimaryOk = false →
      env.restoreRenameOk = true →
      SaveState encode env st repoPath fs =
        (.error "failed to write state file",
         { fs with primary := some p, backup := none })) ∧
    ((fs.primary.isSome ∨ fs.backup.isSome) →
      ((SaveState encode env st repoPath fs).2.primary.isSome ∨
       (SaveState encode env st repoPath fs).2.backup.isSome)) := by
  refine ⟨?_, ?_, ?_, ?_⟩
  · intro data p hdata hdir hprim hren hwr
    simp [SaveState, hdata, hdir, hprim, hren, hwr]
  · intro data p hdata hdir hprim hren hcopyr hcopyw hwr
    simp [SaveState, hdata, hdir, hprim, hren, hcopyr, hcopyw, hwr]
  · intro data p hdata hdir hprim hren hwr hrest
    simp [SaveState, hdata, hdir, hprim, hren, hwr, hrest]
  · intro hone
    unfold SaveState
    rcases hdir : env.stateDirOk repoPath with _ | _
    · simpa [hdir] using hone
    · cases hdata : encode st with
      | none => simpa [hdata, hdir] using hone
      | some data =>
        cases hprim : fs.primary with
        | some p =>
          rcases hren : env.renameToBackupOk with _ | _ <;>
            rcases hwr : env.writePrimaryOk with _ | _ <;>
            rcases hcopyr : env.readPrimaryForCopyOk with _ | _ <;>
            rcases hcopyw : env.writeBackupCopyOk with _ | _ <;>
            rcases hrest : env.restoreRenameOk with _ | _ <;>
            cases hbak : fs.backup <;>
            simp [hdir, hdata, hprim, hren, hwr, hcopyr, hcopyw, hrest, hbak]
        | none =>
          rcases hwr : env.writePrimaryOk with _ | _ <;>
            rcases hrest : env.restoreRenameOk with _ | _ <;>
            cases hbak : fs.backup <;>
            simp_all [hdir, hdata, hprim, hwr, hrest, hbak]

/-- Witness for C2 at a concrete store holding a primary and no backup. -/
theorem C2_saveState_backup_rotation_and_survival_witness :
    ((encodeG DefaultState = some "G" ∧
      allOkSaveEnv.stateDirOk "repo" = true ∧
      ({ primary := some { content := "old", mode := 0o644 }, backup := none,
         corrupted := [] } : StateFS).primary
        = some { content := "old", mode := 0o644 } ∧
      allOkSaveEnv.renameToBackupOk = true ∧
      allOkSaveEnv.writePrimaryOk = true) ∧
     ((({ primary := some { content := "old", mode := 0o644 }, backup := none,
          corrupted := [] } : StateFS).primary.isSome ∨
       ({ primary := some { content := "old", mode := 0o644 }, backup := none,
          corrupted := [] } : StateFS).backup.isSome))) ∧
    (SaveState encodeG allOkSaveEnv DefaultState "repo"
        { primary := some { content := "old", mode := 0o644 }, backup := none,
          corrupted := [] } =
      (.ok (), { primary := some { content := "G", mode := 0o644 },
                 backup := some { content := "old", mode := 0o644 },
                 corrupted := [] }) ∧
     ((SaveState encodeG allOkSaveEnv DefaultState "repo"
          { primary := some { content := "old", mode := 0o644 }, backup := none,
            corrupted := [] }).2.primary.isSome ∨
      (SaveState encodeG allOkSaveEnv DefaultState "repo"
          { primary := some { content := "old", mode := 0o644 }, backup := none,
            corrupted := [] }).2.backup.isSome)) :=
  ⟨⟨⟨by decide, by decide, by decide, by decide, by decide⟩, by decide⟩,
   (C2_saveState_backup_rotation_and_survival encodeG allOkSaveEnv DefaultState "repo"
      { primary := some { content := "old", mode := 0o644 }, backup := none,
        corrupted := [] }).1 "G" { content := "old", mode := 0o644 }
        (by decide) (by decide) (by decide) (by decide) (by decide),
   (C2_saveState_backup_rotation_and_survival encodeG allOkSaveEnv DefaultState "repo"
      { primary := some { content := "old", mode := 0o644 }, backup := none,
        corrupted := [] }).2.2.2 (by decide)⟩

/-!
Process lock (lock/lockfile.go). The kernel flock is modelled as
`holder : Option Nat` (the PID owning the exclusive lock, `none` when
free) and the lock file `cs.lock` as `lockFile : Option String` (its
contents, `none` when absent). `acquireLockPlatform` (the Unix flock
with `LOCK_EX | LOCK_NB`) succeeds exactly when no holder exists.
-/

/-- The kernel lock plus the on-disk `cs.lock` file for one repository. -/
structure LockWorld where
  holder : Option Nat
  lockFile : Option String
deriving Repr, DecidableEq

/-- `lock.Lock`: the handle. `file = none` models the Go `l.file = nil`. -/
structure Lock where
  file : Option Unit
  filePath : String
deriving Repr, DecidableEq

/-- Model of the whitespace class trimmed by `strings.TrimSpace` (the
ASCII space characters relevant to lock-file contents). -/
def isSpaceChar (c : Char) : Bool :=
  c = ' ' || c = '\t' || c = '\n' || c = '\r'

/-- `strings.TrimSpace`: drop leading and trailing whitespace. -/
def trimSpace (s : String) : String :=
  String.mk (((s.data.dropWhile isSpaceChar).reverse.dropWhile isSpaceChar).reverse)

/-- Digit-string value for `strconv.Atoi`: `none` unless nonempty and
all decimal digits. -/
def digitsToNat : List Char → Option Nat
  | [] => none
  | ds =>
    if ds.all (fun c => c.isDigit) then
      some (ds.foldl (fun a c => a * 10 + (c.toNat - 48)) 0)
    else none

/-- `strconv.Atoi`: optional sign followed by at least one digit. -/
def atoi (s : String) : Option Int :=
  match s.data with
  | '+' :: ds => (digitsToNat ds).map Int.ofNat
  | '-' :: ds => (digitsToNat ds).map (fun n => -(Int.ofNat n))
  | ds => (digitsToNat ds).map Int.ofNat

/-- `lock.readPIDFromLockFile`: read the file, trim space, and return the
trimmed text when `strconv.Atoi` accepts it, else the empty string (also
when the read fails). -/
def readPIDFromLockFile (lockFile : Option String) : String :=
  match lockFile with
  | none => ""
  | some data =>
    let pidStr := trimSpace data
    match atoi pidStr with
    | none => ""
    | some _ => pidStr

/-- Fault flags for `AcquireLock`: `GetStateDir`, `os.OpenFile`, and the
truncate/seek/write sequence that records the PID. -/
structure AcquireEnv where
  stateDirOk : Bool
  openOk : Bool
  writePidOk : Bool

/-- `lock.AcquireLock`, translated from lockfile.go: resolve the state
directory, open/create `cs.lock`, try the non-blocking exclusive flock;
on contention, close and report "another cs instance is running in this
repo (PID N)" when a PID can be read from the file, else a plain
acquisition error; on success, record our PID in the file (ignoring
errors) and return the handle. -/
def AcquireLock (env : AcquireEnv) (pid : Nat) (w : LockWorld) :
    Except String Lock × LockWorld :=
  if !env.stateDirOk then
    (.error "failed to get state directory", w)
  else if !env.openOk then
    (.error "failed to open lock file", w)
  else
    let w0 : LockWorld := { w with lockFile := some (w.lockFile.getD "") }
    match w0.holder with
    | some _ =>
      let existingPID := readPIDFromLockFile w0.lockFile
      if existingPID ≠ "" then
        (.error ("another cs instance is running in this repo (PID "
                   ++ existingPID ++ ")"), w0)
      else
        (.error "failed to acquire lock: lock is held by another process", w0)
    | none =>
      let w1 : LockWorld :=
        { holder := some pid,
          lockFile := if env.writePidOk then some (toString pid ++ "\n")
                      else w0.lockFile }
      (.ok { file := some (), filePath := "cs.lock" }, w1)

/-- Filesystem operations performed by `Release`, for observing that the
second release performs none. -/
inductive FsOp
  | closeFile
  | removeFile
deriving Repr, DecidableEq

/-- Fault flags for `Release`: `file.Close` and `os.Remove`. -/
structure ReleaseEnv where
  closeOk : Bool
  removeOk : Bool

/-- `Lock.Release`, translated from lockfile.go: a nil handle returns
immediately; otherwise close the file (releasing the flock), remove
`cs.lock` — a missing file is not an error — and only then clear the
handle. The third component lists the filesystem operations attempted. -/
def Release (env : ReleaseEnv) (l : Lock) (w : LockWorld) :
    Except String Unit × Lock × LockWorld × List FsOp :=
  match l.file with
  | none => (.ok (), l, w, [])
  | some _ =>
    if !env.closeOk then
      (.error "failed to close lock file", l, w, [FsOp.closeFile])
    else
      let w1 : LockWorld := { w with holder := none }
      match w1.lockFile with
      | none =>
        (.ok (), { l with file := none }, w1, [FsOp.closeFile, FsOp.removeFile])
      | some _ =>
        if env.removeOk then
          (.ok (), { l with file := none }, { w1 with lockFile := none },
           [FsOp.closeFile, FsOp.removeFile])
        else
          (.error "failed to remove lock file", l, w1,
           [FsOp.closeFile, FsOp.removeFile])

/-- A fault-free `AcquireLock` environment, for witnesses. -/
def allOkAcquireEnv : AcquireEnv :=
  { stateDirOk := true, openOk := true, writePidOk := true }

/-- A fault-free `Release` environment, for witnesses. -/
def allOkReleaseEnv : ReleaseEnv := { closeOk := true, removeOk := true }

/-- C3 counterexample: with the lock held by PID 42 (lock file `"42\n"`),
a second `AcquireLock` fails with the message
`another cs instance is running in this repo (PID 42)`, which is not the
claimed `another controller is running in this repo (PID 42)`. -/
theorem C3_lock_error_message_counterexample :
    (AcquireLock allOkAcquireEnv 43
        { holder := some 42, lockFile := some "42\n" }).1
      = .error "another cs instance is running in this repo (PID 42)" ∧
    "another cs instance is running in this repo (PID 42)"
      ≠ "another controller is running in this repo (PID 42)" := by
  constructor
  · rfl
  · decide

/-- C3 (amended): while one process holds the repository lock, a second
`AcquireLock` fails, and the error is the dedicated message
`another cs instance is running in this repo (PID N)` with N the PID read
from the lock file when the file contains a valid number; after the
holder releases the lock, a subsequent `AcquireLock` succeeds. -/
theorem C3_lock_mutual_exclusion
    (env env2 env3 : AcquireEnv) (renv : ReleaseEnv)
    (pid pid2 : Nat) (w : LockWorld) (z : Int)
    (h1 : env.stateDirOk = true) (h2 : env.openOk = true)
    (h3 : env.writePidOk = true)
    (h4 : env2.stateDirOk = true) (h5 : env2.openOk = true)
    (h6 : env3.stateDirOk = true) (h7 : env3.openOk = true)
    (h8 : renv.closeOk = true) (h9 : renv.removeOk = true)
    (hfree : w.holder = none)
    (htrim : trimSpace (toString pid ++ "\n") = toString pid)
    (hatoi : atoi (toString pid) = some z)
    (hne : toString pid ≠ "") :
    AcquireLock env pid w =
      (.ok { file := some (), filePath := "cs.lock" },
       { holder := some pid, lockFile := some (toString pid ++ "\n") }) ∧
    (AcquireLock env2 pid2
        { holder := some pid, lockFile := some (toString pid ++ "\n") }).1
      = .error ("another cs instance is running in this repo (PID "
                  ++ toString pid ++ ")") ∧
    Release renv { file := some (), filePath := "cs.lock" }
        { holder := some pid, lockFile := some (toString pid ++ "\n") }
      = (.ok (), { file := none, filePath := "cs.lock" },
         { holder := none, lockFile := none },
         [FsOp.closeFile, FsOp.removeFile]) ∧
    (AcquireLock env3 pid2 { holder := none, lockFile := none }).1
      = .ok { file := some (), filePath := "cs.lock" } := by
  refine ⟨?_, ?_, ?_, ?_⟩
  · simp [AcquireLock, h1, h2, h3, hfree]
  · simp [AcquireLock, readPIDFromLockFile, h4, h5, htrim, hatoi, hne]
  · simp [Release, h8, h9]
  · simp [AcquireLock, h6, h7]

/-- Witness for C3 (amended) with PIDs 42 and 43. -/
theorem C3_lock_mutual_exclusion_witness :
    (allOkAcquireEnv.stateDirOk = true ∧ allOkAcquireEnv.openOk = true ∧
     allOkAcquireEnv.writePidOk = true ∧
     allOkReleaseEnv.closeOk = true ∧ allOkReleaseEnv.removeOk = true ∧
     (LockWorld.mk none none).holder = none ∧
     trimSpace (toString 42 ++ "\n") = toString 42 ∧
     atoi (toString 42) = some 42 ∧
     toString 42 ≠ "") ∧
    (AcquireLock allOkAcquireEnv 42 { holder := none, lockFile := none } =
      (.ok { file := some (), filePath := "cs.lock" },
       { holder := some 42, lockFile := some (toString 42 ++ "\n") }) ∧
     (AcquireLock allOkAcquireEnv 43
         { holder := some 42, lockFile := some (toString 42 ++ "\n") }).1
       = .error ("another cs instance is running in this repo (PID "
                   ++ toString 42 ++ ")") ∧
     Release allOkReleaseEnv { file := some (), filePath := "cs.lock" }
         { holder := some 42, lockFile := some (toString 42 ++ "\n") }
       = (.ok (), { file := none, filePath := "cs.lock" },
          { holder := none, lockFile := none },
          [FsOp.closeFile, FsOp.removeFile]) ∧
     (AcquireLock allOkAcquireEnv 43 { holder := none, lockFile := none }).1
       = .ok { file := some (), filePath := "cs.lock" }) :=
  ⟨⟨by decide, by decide, by decide, by decide, by decide, by decide,
    by decide, by decide, by decide⟩,
   C3_lock_mutual_exclusion allOkAcquireEnv allOkAcquireEnv allOkAcquireEnv
     allOkReleaseEnv 42 43 { holder := none, lockFile := none } 42
     (by decide) (by decide) (by decide) (by decide) (by decide) (by decide)
     (by decide) (by decide) (by decide) (by decide) (by decide) (by decide)
     (by decide)⟩

/-- C10: `Release` is idempotent: the first (successful) call closes the
lock file, removes it from disk and clears the handle; every subsequent
call on the cleared handle returns success without performing any
filesystem operation; and a missing lock file at removal time is not
reported as an error. -/
theorem C10_release_idempotent
    (env env2 : ReleaseEnv) (l : Lock) (w w2 : LockWorld) :
    (l.file = none → Release env l w = (.ok (), l, w, [])) ∧
    (l.file = some () → env.closeOk = true → env.removeOk = true →
      Release env l w =
        (.ok (), { l with file := none }, { holder := none, lockFile := none },
         [FsOp.closeFile, FsOp.removeFile])) ∧
    (Release env2 { l with file := none } w2
      = (.ok (), { l with file := none }, w2, [])) ∧
    (l.file = some () → env.closeOk = true → w.lockFile = none →
      (Release env l w).1 = .ok ()) := by
  refine ⟨?_, ?_, ?_, ?_⟩
  · intro hnone
    simp [Release, hnone]
  · intro hsome hc hr
    cases hlf : w.lockFile with
    | none => simp [Release, hsome, hc, hr, hlf]
    | some s => simp [Release, hsome, hc, hr, hlf]
  · simp [Release]
  · intro hsome hc hlf
    simp [Release, hsome, hc, hlf]

/-- Witness for C10: a handle over a held lock with file `"42\n"`,
released twice. -/
theorem C10_release_idempotent_witness :
    ((Lock.mk (some ()) "cs.lock").file = some () ∧
     allOkReleaseEnv.closeOk = true ∧ allOkReleaseEnv.removeOk = true) ∧
    (Release allOkReleaseEnv { file := some (), filePath := "cs.lock" }
        { holder := some 42, lockFile := some "42\n" }
      = (.ok (), { file := none, filePath := "cs.lock" },
         { holder := none, lockFile := none },
         [FsOp.closeFile, FsOp.removeFile]) ∧
     Release allOkReleaseEnv
        { file := none, filePath := "cs.lock" }
        { holder := none, lockFile := none }
      = (.ok (), { file := none, filePath := "cs.lock" },
         { holder := none, lockFile := none }, [])) :=
  ⟨⟨by decide, by decide, by decide⟩,
   (C10_release_idempotent allOkReleaseEnv allOkReleaseEnv
      { file := some (), filePath := "cs.lock" }
      { holder := some 42, lockFile := some "42\n" }
      { holder := none, lockFile := none }).2.1
     (by decide) (by decide) (by decide),
   (C10_release_idempotent allOkReleaseEnv allOkReleaseEnv
      { file := some (), filePath := "cs.lock" }
      { holder := some 42, lockFile := some "42\n" }
      { holder := none, lockFile := none }).2.2.1⟩

/-!
Repository identity (config GetCanonicalRepoPath / GetRepoHash).
`filepath.EvalSymlinks` and `filepath.Abs` are OS calls, modelled as
function parameters returning `none` on failure; `sha256.Sum256` is a
parameter producing the 32 digest bytes (each < 256). The claims proved
here concern the `%x` formatting of the first four digest bytes and the
fact that the hash depends only on the canonical path, which hold for
every choice of these parameters.
-/

/-- One lowercase hexadecimal digit of `fmt` `%x` formatting. -/
def hexDigitChar (n : Nat) : Char :=
  match n with
  | 0 => '0' | 1 => '1' | 2 => '2' | 3 => '3'
  | 4 => '4' | 5 => '5' | 6 => '6' | 7 => '7'
  | 8 => '8' | 9 => '9' | 10 => 'a' | 11 => 'b'
  | 12 => 'c' | 13 => 'd' | 14 => 'e' | 15 => 'f'
  | _ => '0'

/-- `%x` of one byte: two lowercase hex digits, high nibble first. -/
def hexByte (b : Nat) : String :=
  String.mk [hexDigitChar (b / 16 % 16), hexDigitChar (b % 16)]

/-- `%x` of a byte slice: concatenation of the bytes' hex forms. -/
def hexBytes : List Nat → String
  | [] => ""
  | b :: bs => hexByte b ++ hexBytes bs

/-- `config.GetCanonicalRepoPath`: resolve symlinks, then make absolute;
fail loudly if either step fails. -/
def GetCanonicalRepoPath (evalSymlinks abspath : String → Option String)
    (path : String) : Option String :=
  match evalSymlinks path with
  | none => none
  | some resolved => abspath resolved

/-- `config.GetRepoHash`: the first 8 hex characters (4 bytes) of the
SHA-256 of the canonical repository path. -/
def GetRepoHash (evalSymlinks abspath : String → Option String)
    (sha256 : String → List Nat) (repoPath : String) : Option String :=
  match GetCanonicalRepoPath evalSymlinks abspath repoPath with
  | none => none
  | some canonical => some (hexBytes ((sha256 canonical).take 4))

/-- The sixteen lowercase hexadecimal digit characters. -/
def lowerHexDigits : List Char := "0123456789abcdef".data

theorem hexDigitChar_mem_lowerHexDigits (n : Nat) :
    hexDigitChar n ∈ lowerHexDigits := by
  unfold hexDigitChar
  split <;> decide

theorem hexBytes_length (bs : List Nat) :
    (hexBytes bs).length = 2 * bs.length := by
  induction bs with
  | nil => rfl
  | cons b bs ih =>
    show (hexByte b ++ hexBytes bs).length = 2 * (bs.length + 1)
    rw [String.length_append, ih]
    have : (hexByte b).length = 2 := rfl
    omega

theorem hexBytes_mem (bs : List Nat) (c : Char)
    (hc : c ∈ (hexBytes bs).data) : c ∈ lowerHexDigits := by
  induction bs with
  | nil => simp [hexBytes, String.data] at hc
  | cons b bs ih =>
    rw [show hexBytes (b :: bs) = hexByte b ++ hexBytes bs from rfl,
        String.data_append] at hc
    rcases List.mem_append.mp hc with h | h
    · have h2 : c = hexDigitChar (b / 16 % 16) ∨ c = hexDigitChar (b % 16) := by
        simpa [hexByte] using h
      rcases h2 with h2 | h2 <;> exact h2 ▸ hexDigitChar_mem_lowerHexDigits _
    · exact ih h

/-- C4: whenever the path canonicalizes, `GetRepoHash` returns a string
of exactly 8 lowercase hexadecimal characters; it is deterministic (a
pure function of its arguments) and depends only on the canonical path,
so any two paths with the same canonical path receive the same hash.
Quantified over every symlink resolver, absolutizer, and digest function
producing 32 bytes. -/
theorem C4_getRepoHash_format_and_canonicality
    (evalSymlinks abspath : String → Option String)
    (sha256 : String → List Nat) (p q c : String)
    (hp : GetCanonicalRepoPath evalSymlinks abspath p = some c)
    (hq : GetCanonicalRepoPath evalSymlinks abspath q = some c)
    (hlen : (sha256 c).length = 32) :
    ∃ h, GetRepoHash evalSymlinks abspath sha256 p = some h ∧
      h.length = 8 ∧
      (∀ ch ∈ h.data, ch ∈ lowerHexDigits) ∧
      GetRepoHash evalSymlinks abspath sha256 q = some h := by
  refine ⟨hexBytes ((sha256 c).take 4), ?_, ?_, ?_, ?_⟩
  · unfold GetRepoHash
    rw [hp]
  · rw [hexBytes_length, List.length_take, hlen]
    decide
  · intro ch hch
    exact hexBytes_mem _ _ hch
  · unfold GetRepoHash
    rw [hq]

/-- Witness for C4: identity canonicalization of two spellings of one
path and a constant digest. -/
theorem C4_getRepoHash_format_and_canonicality_witness :
    (GetCanonicalRepoPath some (fun s => some (trimSpace s)) " /repo " = some "/repo" ∧
     GetCanonicalRepoPath some (fun s => some (trimSpace s)) "/repo" = some "/repo" ∧
     ((fun _ : String => List.replicate 32 171) "/repo").length = 32) ∧
    (∃ h, GetRepoHash some (fun s => some (trimSpace s))
            (fun _ => List.replicate 32 171) " /repo " = some h ∧
      h.length = 8 ∧
      (∀ ch ∈ h.data, ch ∈ lowerHexDigits) ∧
      GetRepoHash some (fun s => some (trimSpace s))
            (fun _ => List.replicate 32 171) "/repo" = some h) :=
  ⟨⟨by decide, by decide, by decide⟩,
   C4_getRepoHash_format_and_canonicality some (fun s => some (trimSpace s))
     (fun _ => List.replicate 32 171) " /repo " "/repo" "/repo"
     (by decide) (by decide) (by decide)⟩

/-- C5 counterexample: with a corrupt primary `"\x7b"` and a parsable backup
`"G"`, `LoadState` quarantines the corrupt bytes and returns the backup's
state in memory, but on disk `state.json` is left absent — not restored
to the backup's contents as the claim states. -/
theorem C5_no_on_disk_restore_counterexample :
    (LoadState parseG encodeG allOkLoadEnv "repo" fsCorrupt).2.primary = none ∧
    (LoadState parseG encodeG allOkLoadEnv "repo" fsCorrupt).2.primary
      ≠ some { content := "G", mode := 0o644 } ∧
    (LoadState parseG encodeG allOkLoadEnv "repo" fsCorrupt).2.corrupted
      = [(1700000000, { content := "\x7b", mode := 0o644 })] ∧
    (LoadState parseG encodeG allOkLoadEnv "repo" fsCorrupt).1
      = { helpScreensSeen := 7, instancesData := "[i]", repoPath := "repo" } := by
  refine ⟨?_, ?_, ?_, ?_⟩ <;> decide

/-- C5 (amended): when `state.json` holds unparsable bytes and a valid
`state.json.bak` exists, `LoadState` creates
`state.json.corrupted.<ts>` containing the corrupt bytes and returns the
backup's state (its instances present) in memory; `state.json` itself is
left absent on disk (the corrupt primary was renamed away and no restore
is written), with the backup file unchanged. -/
theorem C5_corrupt_primary_backup_recovery
    (parse : String → Option State) (encode : State → Option String)
    (env : LoadEnv) (repoPath : String) (fs : StateFS) (p b : FileData)
    (bs : State)
    (hdir : env.stateDirOk repoPath = true)
    (hprim : fs.primary = some p)
    (hread : env.primaryReadFails = false)
    (hparse : parse p.content = none)
    (hren : env.renameCorruptOk = true)
    (hbakf : fs.backup = some b)
    (hbak : env.backupReadFails = false)
    (hbparse : parse b.content = some bs) :
    (LoadState parse encode env repoPath fs).2.corrupted
      = fs.corrupted ++ [(env.now, p)] ∧
    (LoadState parse encode env repoPath fs).1
      = { bs with repoPath := repoPath } ∧
    (LoadState parse encode env repoPath fs).1.instancesData = bs.instancesData ∧
    (LoadState parse encode env repoPath fs).2.primary = none ∧
    (LoadState parse encode env repoPath fs).2.backup = some b := by
  refine ⟨?_, ?_, ?_, ?_, ?_⟩ <;>
    simp [LoadState, hdir, hprim, hread, hparse, hren, hbakf, hbak, hbparse]

/-- Witness for C5 (amended) at the concrete corrupt store. -/
theorem C5_corrupt_primary_backup_recovery_witness :
    (allOkLoadEnv.stateDirOk "repo" = true ∧
     fsCorrupt.primary = some { content := "\x7b", mode := 0o644 } ∧
     allOkLoadEnv.primaryReadFails = false ∧
     parseG "\x7b" = none ∧
     allOkLoadEnv.renameCorruptOk = true ∧
     fsCorrupt.backup = some { content := "G", mode := 0o644 } ∧
     allOkLoadEnv.backupReadFails = false ∧
     parseG "G" = some { helpScreensSeen := 7, instancesData := "[i]",
                         repoPath := "" }) ∧
    ((LoadState parseG encodeG allOkLoadEnv "repo" fsCorrupt).2.corrupted
       = fsCorrupt.corrupted ++ [(allOkLoadEnv.now, { content := "\x7b", mode := 0o644 })] ∧
     (LoadState parseG encodeG allOkLoadEnv "repo" fsCorrupt).1
       = { helpScreensSeen := 7, instancesData := "[i]", repoPath := "repo" } ∧
     (LoadState parseG encodeG allOkLoadEnv "repo" fsCorrupt).1.instancesData = "[i]" ∧
     (LoadState parseG encodeG allOkLoadEnv "repo" fsCorrupt).2.primary = none ∧
     (LoadState parseG encodeG allOkLoadEnv "repo" fsCorrupt).2.backup
       = some { content := "G", mode := 0o644 }) :=
  ⟨⟨by decide, by decide, by decide, by decide, by decide, by decide,
    by decide, by decide⟩,
   C5_corrupt_primary_backup_recovery parseG encodeG allOkLoadEnv "repo"
     fsCorrupt { content := "\x7b", mode := 0o644 } { content := "G", mode := 0o644 }
     { helpScreensSeen := 7, instancesData := "[i]", repoPath := "" }
     (by decide) (by decide) (by decide) (by decide) (by decide) (by decide)
     (by decide) (by decide)⟩

/-- Concrete codec for the reset scenario: document `"H"` holds help bit
1 and one instance, document `"Q"` holds help bit 1 and no instances. -/
def parse6 : String → Option State := fun str =>
  if str = "H" then
    some { helpScreensSeen := 1, instancesData := "[x]", repoPath := "" }
  else if str = "Q" then
    some { helpScreensSeen := 1, instancesData := "[]", repoPath := "" }
  else none

/-- Concrete encoder matching `parse6` on the two documents involved. -/
def encode6 : State → Option String := fun s =>
  if s.instancesData = "[]" then some "Q" else some "H"

/-- A store whose primary holds help bit 1 and one instance. -/
def fs6 : StateFS :=
  { primary := some { content := "H", mode := 0o644 }, backup := none,
    corrupted := [] }

/-- C6 counterexample: starting from a store with `help_screens_seen = 1`,
load ∘ reset ∘ load yields a state with `help_screens_seen = 1`, not the
default state's 0: `DeleteAllInstances` clears only the instances blob. -/
theorem C6_reset_preserves_help_bits_counterexample :
    (LoadState parse6 encode6 allOkLoadEnv "repo"
        (DeleteAllInstances encode6 allOkSaveEnv
          (LoadState parse6 encode6 allOkLoadEnv "repo" fs6).1
          (LoadState parse6 encode6 allOkLoadEnv "repo" fs6).2).2.2).1
      = { helpScreensSeen := 1, instancesData := "[]", repoPath := "repo" } ∧
    (LoadState parse6 encode6 allOkLoadEnv "repo"
        (DeleteAllInstances encode6 allOkSaveEnv
          (LoadState parse6 encode6 allOkLoadEnv "repo" fs6).1
          (LoadState parse6 encode6 allOkLoadEnv "repo" fs6).2).2.2).1.helpScreensSeen
      ≠ DefaultState.helpScreensSeen := by
  constructor
  · decide
  · decide

/-- C6 (amended): `DeleteAllInstances` (reset) followed by `LoadState`
returns a state whose instances are the default `[]`, but with
`help_screens_seen` preserved from before the reset rather than reset
to 0; the result equals the default state only when the pre-reset
`help_screens_seen` was 0. Quantified over every codec that round-trips
the one document written by the reset. -/
theorem C6_reset_then_load
    (parse : String → Option State) (encode : State → Option String)
    (envL : LoadEnv) (envS : SaveEnv) (s : State) (fs : StateFS)
    (repo d rp : String)
    (hsrepo : s.repoPath = repo)
    (henc : encode { s with instancesData := "[]" } = some d)
    (hparse : parse d = some { helpScreensSeen := s.helpScreensSeen,
                               instancesData := "[]", repoPath := rp })
    (hdirS : envS.stateDirOk repo = true)
    (hren : envS.renameToBackupOk = true)
    (hwr : envS.writePrimaryOk = true)
    (hdirL : envL.stateDirOk repo = true)
    (hreadL : envL.primaryReadFails = false) :
    (LoadState parse encode envL repo
        (DeleteAllInstances encode envS s fs).2.2).1
      = { helpScreensSeen := s.helpScreensSeen, instancesData := "[]",
          repoPath := repo } ∧
    ((LoadState parse encode envL repo
        (DeleteAllInstances encode envS s fs).2.2).1.instancesData
      = DefaultState.instancesData) := by
  have henc2 := hsrepo ▸ henc
  have hsave : (DeleteAllInstances encode envS s fs).2.2.primary
      = some { content := d, mode := 0o644 } := by
    cases hp : fs.primary with
    | none => simp [DeleteAllInstances, SaveState, henc2, hsrepo, hdirS, hp, hwr]
    | some p =>
      simp [DeleteAllInstances, SaveState, henc2, hsrepo, hdirS, hp, hren, hwr]
  constructor
  · simp [LoadState, hdirL, hsave, hreadL, hparse]
  · simp [LoadState, hdirL, hsave, hreadL, hparse, DefaultState]

/-- Witness for C6 (amended) at the concrete reset scenario. -/
theorem C6_reset_then_load_witness :
    (({ helpScreensSeen := 1, instancesData := "[x]", repoPath := "repo" }
        : State).repoPath = "repo" ∧
     encode6 { helpScreensSeen := 1, instancesData := "[]", repoPath := "repo" }
       = some "Q" ∧
     parse6 "Q" = some { helpScreensSeen := 1, instancesData := "[]",
                         repoPath := "" } ∧
     allOkSaveEnv.stateDirOk "repo" = true ∧
     allOkSaveEnv.renameToBackupOk = true ∧
     allOkSaveEnv.writePrimaryOk = true ∧
     allOkLoadEnv.stateDirOk "repo" = true ∧
     allOkLoadEnv.primaryReadFails = false) ∧
    ((LoadState parse6 encode6 allOkLoadEnv "repo"
        (DeleteAllInstances encode6 allOkSaveEnv
          { helpScreensSeen := 1, instancesData := "[x]", repoPath := "repo" }
          fs6).2.2).1
      = { helpScreensSeen := 1, instancesData := "[]", repoPath := "repo" } ∧
     (LoadState parse6 encode6 allOkLoadEnv "repo"
        (DeleteAllInstances encode6 allOkSaveEnv
          { helpScreensSeen := 1, instancesData := "[x]", repoPath := "repo" }
          fs6).2.2).1.instancesData = DefaultState.instancesData) :=
  ⟨⟨by decide, by decide, by decide, by decide, by decide, by decide,
    by decide, by decide⟩,
   C6_reset_then_load parse6 encode6 allOkLoadEnv allOkSaveEnv
     { helpScreensSeen := 1, instancesData := "[x]", repoPath := "repo" }
     fs6 "repo" "Q" ""
     (by decide) (by decide) (by decide) (by decide) (by decide) (by decide)
     (by decide) (by decide)⟩

/-!
Auto-confirm daemon (daemon RunDaemon). An instance is abstracted to the
fields the daemon loop reads: `Started()`, `Paused()`, the `AutoYes` flag
it sets, and the prompt component of `HasUpdated()` for the current tick.
One iteration of the polling loop is a pure function from the instance
list to the trace of session operations it performs.
-/

/-- The slice of `session.Instance` that `RunDaemon` touches. -/
structure Instance where
  title : String
  started : Bool
  paused : Bool
  autoYes : Bool
  hasPrompt : Bool
deriving Repr, DecidableEq

/-- Session operations the daemon can perform on an instance, by title. -/
inductive DaemonOp
  | hasUpdated (title : String)
  | tapEnter (title : String)
  | updateDiffStats (title : String)
deriving Repr, DecidableEq

/-- The launch phase of `RunDaemon`: load the stored instances and set
`AutoYes = true` on each. -/
def daemonLaunch (instances : List Instance) : List Instance :=
  instances.map (fun i => { i with autoYes := true })

/-- One tick of `RunDaemon`'s polling loop: for each instance that is
started and not paused, call `HasUpdated()`; when a prompt is detected,
`TapEnter()` and refresh the diff stats. -/
def daemonTickOps : List Instance → List DaemonOp
  | [] => []
  | i :: rest =>
    (if i.started && !i.paused then
      DaemonOp.hasUpdated i.title ::
        (if i.hasPrompt then
          [DaemonOp.tapEnter i.title, DaemonOp.updateDiffStats i.title]
        else [])
    else []) ++ daemonTickOps rest

/-- C7: on launch the daemon sets `auto_yes = true` on every loaded
instance, and on a poll tick it calls `has_updated()` exactly for the
instances that are started and not paused, and calls `tap_enter()` and
the diff-stats refresh exactly for those among them with a detected
prompt. -/
theorem C7_daemon_launch_and_tick (l : List Instance) (t : String) :
    (∀ i ∈ daemonLaunch l, i.autoYes = true) ∧
    (DaemonOp.hasUpdated t ∈ daemonTickOps l ↔
      ∃ i ∈ l, i.title = t ∧ i.started = true ∧ i.paused = false) ∧
    (DaemonOp.tapEnter t ∈ daemonTickOps l ↔
      ∃ i ∈ l, i.title = t ∧ i.started = true ∧ i.paused = false ∧
        i.hasPrompt = true) ∧
    (DaemonOp.updateDiffStats t ∈ daemonTickOps l ↔
      ∃ i ∈ l, i.title = t ∧ i.started = true ∧ i.paused = false ∧
        i.hasPrompt = true) := by
  refine ⟨?_, ?_, ?_, ?_⟩
  · intro i hi
    rcases List.mem_map.mp hi with ⟨j, _, rfl⟩
    rfl
  · induction l with
    | nil => simp [daemonTickOps]
    | cons i rest ih =>
      by_cases hs : i.started = true ∧ i.paused = false
      · by_cases hp : i.hasPrompt = true <;>
          (simp [daemonTickOps, hs.1, hs.2, hp, ih]; try aesop)
      · have : ¬(i.started && !i.paused) = true := by
          simpa [Bool.and_eq_true] using hs
        simp only [daemonTickOps, this, if_false, List.nil_append, ih]
        aesop
  · induction l with
    | nil => simp [daemonTickOps]
    | cons i rest ih =>
      by_cases hs : i.started = true ∧ i.paused = false
      · by_cases hp : i.hasPrompt = true <;>
          (simp [daemonTickOps, hs.1, hs.2, hp, ih]; try aesop)
      · have : ¬(i.started && !i.paused) = true := by
          simpa [Bool.and_eq_true] using hs
        simp only [daemonTickOps, this, if_false, List.nil_append, ih]
        aesop
  · induction l with
    | nil => simp [daemonTickOps]
    | cons i rest ih =>
      by_cases hs : i.started = true ∧ i.paused = false
      · by_cases hp : i.hasPrompt = true <;>
          (simp [daemonTickOps, hs.1, hs.2, hp, ih]; try aesop)
      · have : ¬(i.started && !i.paused) = true := by
          simpa [Bool.and_eq_true] using hs
        simp only [daemonTickOps, this, if_false, List.nil_append, ih]
        aesop

/-- A mixed concrete fleet: a prompting started instance, a paused one,
and a started quiet one. -/
def fleet7 : List Instance :=
  [{ title := "a", started := true, paused := false, autoYes := false,
     hasPrompt := true },
   { title := "b", started := true, paused := true, autoYes := false,
     hasPrompt := true },
   { title := "c", started := true, paused := false, autoYes := false,
     hasPrompt := false }]

/-- Witness for C7 on the mixed concrete fleet. -/
theorem C7_daemon_launch_and_tick_witness :
    (∀ i ∈ daemonLaunch fleet7, i.autoYes = true) ∧
    (DaemonOp.hasUpdated "a" ∈ daemonTickOps fleet7 ↔
      ∃ i ∈ fleet7, i.title = "a" ∧ i.started = true ∧ i.paused = false) ∧
    (DaemonOp.tapEnter "a" ∈ daemonTickOps fleet7 ↔
      ∃ i ∈ fleet7, i.title = "a" ∧ i.started = true ∧ i.paused = false ∧
        i.hasPrompt = true) ∧
    (DaemonOp.updateDiffStats "a" ∈ daemonTickOps fleet7 ↔
      ∃ i ∈ fleet7, i.title = "a" ∧ i.started = true ∧ i.paused = false ∧
        i.hasPrompt = true) :=
  C7_daemon_launch_and_tick fleet7 "a"

/-- C8: on the absent-file branch `LoadState` leaves the returned state's
internal `repoPath` empty, while the read-error, parse-success,
backup-recovery, and corruption-fallback branches set it to the argument;
consequently the wrappers `SaveInstances`, `DeleteAllInstances`, and
`SetHelpScreensSeen`, which pass the receiver's `repoPath` to
`SaveState`, hand `SaveState` the empty string for a state from the
absent-file branch — observable as the save failing whenever resolving
the state directory of `""` fails while that of the real path succeeds. -/
theorem C8_loadState_repoPath_field
    (parse : String → Option State) (encode : State → Option String)
    (env : LoadEnv) (envS : SaveEnv) (repoPath raw : String)
    (fs : StateFS) (p b : FileData) (st bs s : State) (seen : Nat) :
    (env.stateDirOk repoPath = true → fs.primary = none →
      (LoadState parse encode env repoPath fs).1.repoPath = "") ∧
    (env.stateDirOk repoPath = true → fs.primary = some p →
      env.primaryReadFails = true →
      (LoadState parse encode env repoPath fs).1.repoPath = repoPath) ∧
    (env.stateDirOk repoPath = true → fs.primary = some p →
      env.primaryReadFails = false → parse p.content = some st →
      (LoadState parse encode env repoPath fs).1.repoPath = repoPath) ∧
    (env.stateDirOk repoPath = true → fs.primary = some p →
      env.primaryReadFails = false → parse p.content = none →
      fs.backup = some b → env.backupReadFails = false →
      parse b.content = some bs →
      (LoadState parse encode env repoPath fs).1.repoPath = repoPath) ∧
    (env.stateDirOk repoPath = true → fs.primary = some p →
      env.primaryReadFails = false → parse p.content = none →
      fs.backup = none →
      (LoadState parse encode env repoPath fs).1.repoPath = repoPath) ∧
    (s.repoPath = "" → envS.stateDirOk "" = false →
      (SaveInstances encode envS s raw fs).1
        = .error "failed to get state directory" ∧
      (DeleteAllInstances encode envS s fs).1
        = .error "failed to get state directory" ∧
      (SetHelpScreensSeen encode envS s seen fs).1
        = .error "failed to get state directory") := by
  refine ⟨?_, ?_, ?_, ?_, ?_, ?_⟩
  · intro hdir hprim
    simp [LoadState, hdir, hprim, DefaultState]
  · intro hdir hprim hread
    simp [LoadState, hdir, hprim, hread]
  · intro hdir hprim hread hparse
    simp [LoadState, hdir, hprim, hread, hparse]
  · intro hdir hprim hread hparse hbakf hbak hbparse
    simp [LoadState, hdir, hprim, hread, hparse, hbakf, hbak, hbparse]
  · intro hdir hprim hread hparse hbakf
    simp [LoadState, hdir, hprim, hread, hparse, hbakf]
  · intro hsrepo hdir
    refine ⟨?_, ?_, ?_⟩ <;>
      simp [SaveInstances, DeleteAllInstances, SetHelpScreensSeen, SaveState,
            hsrepo, hdir]

/-- An environment whose state-dir resolution fails exactly on the empty
path, for the C8 witness. -/
def rejectEmptySaveEnv : SaveEnv :=
  { stateDirOk := fun s => !(s == ""), renameToBackupOk := true,
    readPrimaryForCopyOk := true, writeBackupCopyOk := true,
    writePrimaryOk := true, restoreRenameOk := true }

/-- Witness for C8: a store without a primary file, and a state whose
`repoPath` is empty as the absent-file branch leaves it. -/
theorem C8_loadState_repoPath_field_witness :
    (allOkLoadEnv.stateDirOk "repo" = true ∧
     ({ primary := none, backup := none, corrupted := [] } : StateFS).primary
       = none ∧
     DefaultState.repoPath = "" ∧
     rejectEmptySaveEnv.stateDirOk "" = false) ∧
    ((LoadState parseG encodeG allOkLoadEnv "repo"
        { primary := none, backup := none, corrupted := [] }).1.repoPath = "" ∧
     (SaveInstances encodeG rejectEmptySaveEnv DefaultState "[y]"
        { primary := none, backup := none, corrupted := [] }).1
       = .error "failed to get state directory" ∧
     (DeleteAllInstances encodeG rejectEmptySaveEnv DefaultState
        { primary := none, backup := none, corrupted := [] }).1
       = .error "failed to get state directory" ∧
     (SetHelpScreensSeen encodeG rejectEmptySaveEnv DefaultState 3
        { primary := none, backup := none, corrupted := [] }).1
       = .error "failed to get state directory") :=
  ⟨⟨by decide, by decide, by decide, by decide⟩,
   (C8_loadState_repoPath_field parseG encodeG allOkLoadEnv rejectEmptySaveEnv
      "repo" "[y]" { primary := none, backup := none, corrupted := [] }
      { content := "", mode := 0o644 } { content := "", mode := 0o644 }
      DefaultState DefaultState DefaultState 3).1 (by decide) (by decide),
   ((C8_loadState_repoPath_field parseG encodeG allOkLoadEnv rejectEmptySaveEnv
      "repo" "[y]" { primary := none, backup := none, corrupted := [] }
      { content := "", mode := 0o644 } { content := "", mode := 0o644 }
      DefaultState DefaultState DefaultState 3).2.2.2.2.2 (by decide)
      (by decide)).1,
   ((C8_loadState_repoPath_field parseG encodeG allOkLoadEnv rejectEmptySaveEnv
      "repo" "[y]" { primary := none, backup := none, corrupted := [] }
      { content := "", mode := 0o644 } { content := "", mode := 0o644 }
      DefaultState DefaultState DefaultState 3).2.2.2.2.2 (by decide)
      (by decide)).2.1,
   ((C8_loadState_repoPath_field parseG encodeG allOkLoadEnv rejectEmptySaveEnv
      "repo" "[y]" { primary := none, backup := none, corrupted := [] }
      { content := "", mode := 0o644 } { content := "", mode := 0o644 }
      DefaultState DefaultState DefaultState 3).2.2.2.2.2 (by decide)
      (by decide)).2.2⟩

/-- C9: `LoadState` is total at its public interface — as a Lean
function it returns a `State` for every input, never an error — and on
each failure branch (state directory unavailable, primary file unreadable
for a reason other than absence, primary and backup both unparsable) the
returned state carries the default contents
(`help_screens_seen = 0`, `instances = []`). -/
theorem C9_loadState_total_default_on_failure
    (parse : String → Option State) (encode : State → Option String)
    (env : LoadEnv) (repoPath : String) (fs : StateFS) (p b : FileData) :
    (env.stateDirOk repoPath = false →
      (LoadState parse encode env repoPath fs).1 = DefaultState) ∧
    (env.stateDirOk repoPath = true → fs.primary = some p →
      env.primaryReadFails = true →
      (LoadState parse encode env repoPath fs).1.helpScreensSeen = 0 ∧
      (LoadState parse encode env repoPath fs).1.instancesData = "[]") ∧
    (env.stateDirOk repoPath = true → fs.primary = some p →
      env.primaryReadFails = false → parse p.content = none →
      fs.backup = some b → env.backupReadFails = false →
      parse b.content = none →
      (LoadState parse encode env repoPath fs).1.helpScreensSeen = 0 ∧
      (LoadState parse encode env repoPath fs).1.instancesData = "[]") ∧
    (env.stateDirOk repoPath = true → fs.primary = some p →
      env.primaryReadFails = false → parse p.content = none →
      fs.backup = none →
      (LoadState parse encode env repoPath fs).1.helpScreensSeen = 0 ∧
      (LoadState parse encode env repoPath fs).1.instancesData = "[]") := by
  refine ⟨?_, ?_, ?_, ?_⟩
  · intro hdir
    simp [LoadState, hdir]
  · intro hdir hprim hread
    simp [LoadState, hdir, hprim, hread, DefaultState]
  · intro hdir hprim hread hparse hbakf hbak hbparse
    simp [LoadState, hdir, hprim, hread, hparse, hbakf, hbak, hbparse,
          DefaultState]
  · intro hdir hprim hread hparse hbakf
    simp [LoadState, hdir, hprim, hread, hparse, hbakf, DefaultState]

/-- An environment in which every fallible operation fails, for the C9
witness: both the primary and the backup are unparsable garbage. -/
def allBadLoadEnv : LoadEnv :=
  { stateDirOk := fun _ => true, primaryReadFails := false,
    renameCorruptOk := false, backupReadFails := false,
    now := 1700000000, saveEnv := allOkSaveEnv }

/-- A store whose primary and backup are both unparsable. -/
def fsBothBad : StateFS :=
  { primary := some { content := "\x7b", mode := 0o644 },
    backup := some { content := "?", mode := 0o644 },
    corrupted := [] }

/-- Witness for C9 on the doubly-corrupt store. -/
theorem C9_loadState_total_default_on_failure_witness :
    (allBadLoadEnv.stateDirOk "repo" = true ∧
     fsBothBad.primary = some { content := "\x7b", mode := 0o644 } ∧
     allBadLoadEnv.primaryReadFails = false ∧
     parseG "\x7b" = none ∧
     fsBothBad.backup = some { content := "?", mode := 0o644 } ∧
     allBadLoadEnv.backupReadFails = false ∧
     parseG "?" = none) ∧
    ((LoadState parseG encodeG allBadLoadEnv "repo" fsBothBad).1.helpScreensSeen
       = 0 ∧
     (LoadState parseG encodeG allBadLoadEnv "repo" fsBothBad).1.instancesData
       = "[]") :=
  ⟨⟨by decide, by decide, by decide, by decide, by decide, by decide,
    by decide⟩,
   (C9_loadState_total_default_on_failure parseG encodeG allBadLoadEnv "repo"
      fsBothBad { content := "\x7b", mode := 0o644 } { content := "?", mode := 0o644 }).2.2.1
     (by decide) (by decide) (by decide) (by decide) (by decide) (by decide)
     (by decide)⟩
